import Mathlib

/-!
Shallow embedding of the job-lifecycle core of the financial-document-analyzer
repository: the job table (db.py), the background worker (worker.py), the
submission and status endpoints (main.py), and the text-extraction tool
(tools.py).  Fallible collaborators (the crew analysis routine, the queue
enqueue call, the file save, PDF parsing, raw file reads) are modelled as
oracles returning `Except`, where `.error m` stands for a raised exception
whose str() is `m`.
-/

namespace FDA

/-- A row of the `analysis` table (db.py, class Analysis).  `result` is a
nullable Text column; `status` defaults to "pending"; `updated_at` is
refreshed on every committed mutation (the onupdate hook). -/
structure Analysis where
  id : String
  query : String
  file_path : String
  result : Option String
  status : String
  created_at : Nat
  updated_at : Nat
deriving Repr, DecidableEq

/-- The job store: the rows of the `analysis` table, keyed by `id`. -/
abbrev Store := List Analysis

/-- session.get(Analysis, id): primary-key lookup, None when absent. -/
def Store.get : Store → String → Option Analysis
  | [], _ => none
  | r :: rest, id => if r.id == id then some r else Store.get rest id

/-- Committing a row to the table: replace the row carrying the same `id`
if one exists, otherwise insert the row. -/
def Store.put : Store → Analysis → Store
  | [], r => [r]
  | x :: xs, r => if x.id == r.id then r :: xs else x :: Store.put xs r

/-- Outcome of run_crew(query, file_path) in main.py: `.ok text` is a normal
return (already rendered through str), `.error m` is a raised exception with
str() equal to `m`. -/
abbrev RunCrew := String → String → Except String String

/-- worker.py, process_job: fetch the record by id and silently return if it
is missing; otherwise run the crew and commit status "completed" with the
textual result, or, when the crew raises, status "failed" with
"error: " followed by the exception text.  The commit refreshes updated_at
to the current time `now`. -/
def process_job (crew : RunCrew) (now : Nat) (store : Store)
    (job_id query file_path : String) : Store :=
  match Store.get store job_id with
  | none => store
  | some record =>
    match crew query file_path with
    | .ok result =>
        Store.put store
          { record with result := some result, status := "completed", updated_at := now }
    | .error e =>
        Store.put store
          { record with result := some ("error: " ++ e), status := "failed", updated_at := now }

/-- The worker consuming a sequence of deliveries (job_id, query, file_path),
one process_job call per delivery, as the RQ worker does for the queue named
financial. -/
def worker_loop (crew : RunCrew) (now : Nat) :
    List (String × String × String) → Store → Store
  | [], store => store
  | (job_id, q, fp) :: rest, store =>
      worker_loop crew now rest (process_job crew now store job_id q fp)

/-- A raised HTTP-layer exception: HTTPException carries a status code and a
detail string; `err` is any other exception, carrying its str(). -/
inductive PyExn where
  | http (status_code : Nat) (detail : String)
  | err (msg : String)
deriving Repr, DecidableEq

/-- str() of an exception: an HTTPException renders as its status code,
a colon and a space, then the detail; a plain exception is its message. -/
def exnStr : PyExn → String
  | .http c d => toString c ++ ": " ++ d
  | .err m => m

/-- Body of the POST /analyze response (the queued branch carries no
result key, modelled as `none`). -/
structure Response where
  status : String
  job_id : String
  query : String
  file_processed : String
  result : Option String
deriving Repr, DecidableEq

/-- Body of the GET /status response. -/
structure StatusResponse where
  job_id : String
  status : String
  result : Option String
deriving Repr, DecidableEq

/-- The default query substituted in main.py when the submitted query is
empty or missing. -/
def default_query : String := "Analyze this financial document for investment insights"

/-- The inline completion write in main.py: fetch the row by id again and
commit the new result and status; the commit refreshes updated_at.  (At its
two call sites the row was just created, so the fetch succeeds.) -/
def updateJob (s : Store) (id : String) (result : Option String)
    (status : String) (now : Nat) : Store :=
  match Store.get s id with
  | none => s
  | some r => Store.put s { r with result := result, status := status, updated_at := now }

/-- main.py, POST /analyze handler.  Parameters: `redis_available` is the
process-start probe REDIS_AVAILABLE; `save_file` is the outcome of creating
the data directory and writing the upload; `enqueue` is queue.enqueue;
`crew` is run_crew; `file_id` and `job_uuid` are the two fresh uuid4 values
(upload file name, Analysis primary key); `now` the current time; `filename`
the client file name of the upload; `query0` the submitted query form field.
Returns the resulting store and either the response body or the raised
HTTPException.  Control flow mirrors the source: one outer try wrapping
everything, which converts any escaping exception into a 500 whose detail
starts with "Error queuing financial document: "; the inline branch has an
inner try that records a failure into the row and re-raises a 500 whose
detail starts with "Error processing document: ", which the outer handler
then wraps again. -/
def analyze_financial_document
    (redis_available : Bool)
    (save_file : Except String Unit)
    (enqueue : String → Except String Unit)
    (crew : RunCrew)
    (store : Store) (file_id job_uuid : String) (now : Nat)
    (filename : String) (query0 : String) :
    Store × Except PyExn Response :=
  match save_file with
  | .error m => (store, .error (.http 500 ("Error queuing financial document: " ++ m)))
  | .ok _ =>
    let file_path := "data/financial_document_" ++ file_id ++ ".pdf"
    let query := if query0 == "" then default_query else query0
    let job : Analysis :=
      { id := job_uuid, query := query.trim, file_path := file_path,
        result := none, status := "pending", created_at := now, updated_at := now }
    let store1 := Store.put store job
    match redis_available with
    | true =>
      match enqueue job_uuid with
      | .ok _ =>
          (store1, .ok { status := "queued", job_id := job_uuid, query := query,
                         file_processed := filename, result := none })
      | .error m =>
          (store1, .error (.http 500 ("Error queuing financial document: " ++ m)))
    | false =>
      match crew query.trim file_path with
      | .ok result =>
          (updateJob store1 job_uuid (some result) "completed" now,
           .ok { status := "completed", job_id := job_uuid, query := query,
                 file_processed := filename, result := some result })
      | .error e =>
          (updateJob store1 job_uuid (some ("error: " ++ e)) "failed" now,
           .error (.http 500 ("Error queuing financial document: " ++
             exnStr (.http 500 ("Error processing document: " ++ e)))))

/-- main.py, GET /status handler: 404 for an unknown id, otherwise the
id, status and result fields of the row. -/
def job_status (store : Store) (job_id : String) : Except PyExn StatusResponse :=
  match Store.get store job_id with
  | none => .error (.http 404 "Job not found")
  | some r => .ok { job_id := r.id, status := r.status, result := r.result }

/-- tools.py: per-page whitespace normalization inside read_data_tool —
split the page text into lines, strip each line, drop empty lines, rejoin
with single newlines. -/
def normalize_page (text : String) : String :=
  String.intercalate "\n" (((text.splitOn "\n").map String.trim).filter (fun l => !l.isEmpty))

/-- tools.py, FinancialDocumentTool.read_data_tool.  Oracles: `pdf_ready`
says whether the PyPDF2 import succeeded; `pdfParse` is the PdfReader page
loop, returning the extract_text() value of each page (None modelled as
`none`) or `.error` when PdfReader or extraction raises; `fs_exists` is
os.path.exists; `fs_read` is the fallback open/read followed by utf-8
decoding with errors ignored (the decode itself cannot raise, so the oracle
fails exactly when open or read does).  Mirrors the source: missing file
gives the empty string, a PDF parse failure falls through to the raw read,
and a raw read failure gives the empty string. -/
def read_data_tool (pdf_ready : Bool)
    (pdfParse : String → Except String (List (Option String)))
    (fs_exists : String → Bool)
    (fs_read : String → Except String String)
    (path : String) : String :=
  match fs_exists path with
  | false => ""
  | true =>
    let fallback :=
      match fs_read path with
      | .ok data => data
      | .error _ => ""
    match pdf_ready with
    | true =>
      match pdfParse path with
      | .ok pages =>
          String.intercalate "\n\n" (pages.map (fun p => normalize_page (p.getD "")))
      | .error _ => fallback
    | false => fallback

/-- Pointwise form of the result-presence invariant for one row: no result
while pending or queued, a result once completed or failed. -/
def RecOk (r : Analysis) : Prop :=
  ((r.status = "pending" ∨ r.status = "queued") → r.result = none) ∧
  ((r.status = "completed" ∨ r.status = "failed") → r.result ≠ none)

/-- The result-presence invariant over the whole store. -/
def JobInv (s : Store) : Prop := ∀ r ∈ s, RecOk r

/-- One atomic mutation of the job store: a submission handled by
analyze_financial_document, with arbitrary collaborator outcomes and fresh
ids, or one worker delivery handled by process_job. -/
inductive Step : Store → Store → Prop
  | submit (redis : Bool) (save : Except String Unit) (enq : String → Except String Unit)
      (crew : RunCrew) (file_id job_uuid : String) (now : Nat) (filename q : String)
      (s : Store) :
      Step s (analyze_financial_document redis save enq crew s file_id job_uuid now filename q).1
  | work (crew : RunCrew) (now : Nat) (job_id q fp : String) (s : Store) :
      Step s (process_job crew now s job_id q fp)

/-- Stores reachable from the empty table by submissions and worker runs. -/
inductive Reachable : Store → Prop
  | init : Reachable []
  | step {s s' : Store} : Reachable s → Step s s' → Reachable s'

/-- A store holding one already-completed job, used to exercise redelivery. -/
def c1_store : Store :=
  [{ id := "j1", query := "q", file_path := "f", result := some "old",
     status := "completed", created_at := 0, updated_at := 0 }]

/-- A store holding one already-completed job, used to exercise the
unguarded terminal overwrite. -/
def c3_store : Store :=
  [{ id := "j3", query := "q", file_path := "f", result := some "done",
     status := "completed", created_at := 0, updated_at := 0 }]

/-- A pending job awaiting its first worker run. -/
def c4_rec : Analysis :=
  { id := "j4", query := "q", file_path := "f", result := none,
    status := "pending", created_at := 0, updated_at := 0 }

/-- A store holding only the pending job c4_rec. -/
def c4_store : Store := [c4_rec]

/-- A stack-trace-like raw exception text. -/
def c6_raw : String := "Traceback (most recent call last): ValueError: db password is hunter2"

/-- A pending job awaiting its first worker run. -/
def c6_rec : Analysis :=
  { id := "j6", query := "q", file_path := "f", result := none,
    status := "pending", created_at := 0, updated_at := 0 }

/-- A store holding only the pending job c6_rec. -/
def c6_store : Store := [c6_rec]

/-- A pending job used to exercise the status endpoint. -/
def c9_rec : Analysis :=
  { id := "j9", query := "q", file_path := "f", result := none,
    status := "pending", created_at := 0, updated_at := 0 }

/-- A store holding only the pending job c9_rec. -/
def c9_store : Store := [c9_rec]

instance {e a : Type} [DecidableEq e] [DecidableEq a] : DecidableEq (Except e a) := fun x y =>
  match x, y with
  | .ok u, .ok v =>
    if h : u = v then .isTrue (by rw [h]) else .isFalse (by intro hc; cases hc; exact h rfl)
  | .error u, .error v =>
    if h : u = v then .isTrue (by rw [h]) else .isFalse (by intro hc; cases hc; exact h rfl)
  | .ok _, .error _ => .isFalse (by intro hc; cases hc)
  | .error _, .ok _ => .isFalse (by intro hc; cases hc)

theorem mem_put {x r : Analysis} : ∀ {s : Store}, x ∈ Store.put s r → x = r ∨ x ∈ s := by
  intro s
  induction s with
  | nil =>
    intro h
    simp only [Store.put, List.mem_singleton] at h
    exact Or.inl h
  | cons y ys ih =>
    intro h
    simp only [Store.put] at h
    by_cases hy : y.id == r.id
    · rw [if_pos hy] at h
      rcases List.mem_cons.mp h with h | h
      · exact Or.inl h
      · exact Or.inr (List.mem_cons_of_mem y h)
    · rw [if_neg hy] at h
      rcases List.mem_cons.mp h with h | h
      · exact Or.inr (h ▸ List.mem_cons_self y ys)
      · rcases ih h with h | h
        · exact Or.inl h
        · exact Or.inr (List.mem_cons_of_mem y h)

theorem get_put (s : Store) (r : Analysis) : Store.get (Store.put s r) r.id = some r := by
  induction s with
  | nil => simp [Store.put, Store.get]
  | cons y ys ih =>
    simp only [Store.put]
    by_cases hy : y.id == r.id
    · rw [if_pos hy]
      simp [Store.get]
    · rw [if_neg hy]
      simp only [Store.get]
      rw [if_neg hy]
      exact ih

theorem get_some_id : ∀ {s : Store} {id : String} {r : Analysis},
    Store.get s id = some r → r.id = id := by
  intro s
  induction s with
  | nil => intro id r h; simp [Store.get] at h
  | cons y ys ih =>
    intro id r h
    simp only [Store.get] at h
    by_cases hy : y.id == id
    · rw [if_pos hy] at h
      cases h
      exact eq_of_beq hy
    · rw [if_neg hy] at h
      exact ih h

theorem put_inv {s : Store} {r : Analysis} (h : JobInv s) (hr : RecOk r) :
    JobInv (Store.put s r) := by
  intro x hx
  rcases mem_put hx with hx | hx
  · exact hx ▸ hr
  · exact h x hx

/-- RecOk depends only on the status and result fields. -/
theorem RecOk_of (st : String) (res : Option String)
    (h1 : (st = "pending" ∨ st = "queued") → res = none)
    (h2 : (st = "completed" ∨ st = "failed") → res ≠ none)
    (r : Analysis) (hst : r.status = st) (hres : r.result = res) : RecOk r := by
  unfold RecOk
  rw [hst, hres]
  exact ⟨h1, h2⟩

/-- Writing a terminal status together with a textual result preserves the
pointwise invariant. -/
theorem RecOk_terminal (r : Analysis) (res st : String) (now : Nat)
    (hst : st = "completed" ∨ st = "failed") :
    RecOk { r with result := some res, status := st, updated_at := now } := by
  refine RecOk_of st (some res) ?_ (fun _ => Option.some_ne_none res) _ rfl rfl
  intro hc
  exfalso
  rcases hst with h | h <;> subst h <;> rcases hc with hc | hc <;> exact absurd hc (by decide)

theorem updateJob_inv {s : Store} {id : String} {res st : String} {now : Nat}
    (h : JobInv s) (hst : st = "completed" ∨ st = "failed") :
    JobInv (updateJob s id (some res) st now) := by
  unfold updateJob
  cases hget : Store.get s id with
  | none => exact h
  | some r => exact put_inv h (RecOk_terminal r res st now hst)

theorem process_job_inv {crew : RunCrew} {now : Nat} {s : Store} {id q fp : String}
    (h : JobInv s) : JobInv (process_job crew now s id q fp) := by
  unfold process_job
  cases Store.get s id with
  | none => exact h
  | some record =>
    cases crew q fp with
    | ok r => exact put_inv h (RecOk_terminal record r "completed" now (Or.inl rfl))
    | error e => exact put_inv h (RecOk_terminal record ("error: " ++ e) "failed" now (Or.inr rfl))

/-- A freshly created row is pending with no result. -/
theorem RecOk_pending (id q fp : String) (now : Nat) :
    RecOk { id := id, query := q, file_path := fp, result := none,
            status := "pending", created_at := now, updated_at := now } := by
  refine RecOk_of "pending" none (fun _ => rfl) ?_ _ rfl rfl
  intro hc
  exfalso
  rcases hc with hc | hc <;> exact absurd hc (by decide)

theorem analyze_inv (redis : Bool) (save : Except String Unit)
    (enq : String → Except String Unit) (crew : RunCrew) (s : Store)
    (file_id job_uuid : String) (now : Nat) (fn q : String)
    (h : JobInv s) :
    JobInv (analyze_financial_document redis save enq crew s file_id job_uuid now fn q).1 := by
  unfold analyze_financial_document
  cases save with
  | error m => exact h
  | ok u =>
    dsimp only
    have hjob : JobInv (Store.put s
        { id := job_uuid, query := (if q == "" then default_query else q).trim,
          file_path := "data/financial_document_" ++ file_id ++ ".pdf",
          result := none, status := "pending", created_at := now, updated_at := now }) :=
      put_inv h (RecOk_pending _ _ _ _)
    cases redis with
    | true =>
      dsimp only
      cases enq job_uuid with
      | ok v => exact hjob
      | error m => exact hjob
    | false =>
      dsimp only
      cases crew (if q == "" then default_query else q).trim
          ("data/financial_document_" ++ file_id ++ ".pdf") with
      | ok r => exact updateJob_inv hjob (Or.inl rfl)
      | error e => exact updateJob_inv hjob (Or.inr rfl)

/-- Lookup of a freshly committed row under any name of its id. -/
theorem get_put_at {s : Store} {r : Analysis} {id : String} (h : r.id = id) :
    Store.get (Store.put s r) id = some r := h ▸ get_put s r

/-- C1: the claim states that redelivering a terminal job id is a no-op that
neither re-invokes the executor nor changes result or updated_at.  The code
violates it: process_job in worker.py fetches the record and runs run_crew
without ever checking the stored status, so a redelivered completed job is
re-executed and its result and updated_at are overwritten.  Here the store
holds job j1 already completed with result old and updated_at 0; redelivery
with the crew returning new leaves the record with result new (the fresh
executor output, so the executor ran) and updated_at 1. -/
theorem c1_terminal_redelivery_reexecutes :
    job_status c1_store "j1" = .ok { job_id := "j1", status := "completed", result := some "old" } ∧
    (Store.get c1_store "j1").map (fun r => r.updated_at) = some 0 ∧
    job_status (process_job (fun _ _ => .ok "new") 1 c1_store "j1" "q" "f") "j1" =
      .ok { job_id := "j1", status := "completed", result := some "new" } ∧
    (Store.get (process_job (fun _ _ => .ok "new") 1 c1_store "j1" "q" "f") "j1").map
        (fun r => r.updated_at) = some 1 :=
  ⟨by decide, by decide, by decide, by decide⟩

/-- C2: the claim states that in Queued mode the handler transitions the
stored record from pending to queued before returning, so a status query
observes queued.  The code violates it: the queued branch of main.py
enqueues and returns the literal response status queued without ever
writing to the database, so a subsequent status query observes pending. -/
theorem c2_queued_submission_store_stays_pending :
    (analyze_financial_document true (.ok ()) (fun _ => .ok ()) (fun _ _ => .ok "r")
        [] "f2" "job2" 0 "doc.pdf" "summarize").2 =
      .ok { status := "queued", job_id := "job2", query := "summarize",
            file_processed := "doc.pdf", result := none } ∧
    job_status (analyze_financial_document true (.ok ()) (fun _ => .ok ()) (fun _ _ => .ok "r")
        [] "f2" "job2" 0 "doc.pdf" "summarize").1 "job2" =
      .ok { job_id := "job2", status := "pending", result := none } :=
  ⟨by decide, by decide⟩

/-- C3: the claim states that the update operation signals an IntegrityError
when the job id has no stored record and rejects writes to terminal records.
The code violates both halves: the only update path (fetch, mutate, commit
in process_job) silently returns the store unchanged for a missing id, and
overwrites an already completed record without any rejection. -/
theorem c3_update_never_rejects :
    process_job (fun _ _ => .ok "r") 1 [] "missing" "q" "f" = [] ∧
    job_status c3_store "j3" = .ok { job_id := "j3", status := "completed", result := some "done" } ∧
    job_status (process_job (fun _ _ => .ok "overwrite") 1 c3_store "j3" "q" "f") "j3" =
      .ok { job_id := "j3", status := "completed", result := some "overwrite" } :=
  ⟨by decide, by decide, by decide⟩

/-- C4: any exception raised by the analysis routine is caught at the
process_job boundary and converted into a failed record carrying a
description; process_job always returns a store (its return type, with the
only fallible collaborator modelled as an Except oracle, has no exception
channel), and the worker loop simply continues with the next delivery after
a failing one. -/
theorem c4_executor_failure_contained (crew : RunCrew) (now : Nat) (store : Store)
    (job_id q fp e : String) (record : Analysis) (ds : List (String × String × String))
    (hfound : Store.get store job_id = some record)
    (herr : crew q fp = .error e) :
    process_job crew now store job_id q fp =
      Store.put store { record with
        result := some ("error: " ++ e), status := "failed", updated_at := now } ∧
    worker_loop crew now ((job_id, q, fp) :: ds) store =
      worker_loop crew now ds (process_job crew now store job_id q fp) := by
  constructor
  · unfold process_job
    rw [hfound, herr]
  · rfl

/-- Witness for C4 at a concrete pending job, a crew that raises boom, and a
second delivery behind it. -/
theorem c4_witness :
    process_job (fun _ _ => .error "boom") 1 c4_store "j4" "q" "f" =
      Store.put c4_store { c4_rec with
        result := some ("error: " ++ "boom"), status := "failed", updated_at := 1 } ∧
    worker_loop (fun _ _ => .error "boom") 1 [("j4", "q", "f"), ("j5", "q2", "f2")] c4_store =
      worker_loop (fun _ _ => .error "boom") 1 [("j5", "q2", "f2")]
        (process_job (fun _ _ => .error "boom") 1 c4_store "j4" "q" "f") :=
  c4_executor_failure_contained (fun _ _ => .error "boom") 1 c4_store "j4" "q" "f" "boom"
    c4_rec [("j5", "q2", "f2")] (by decide) rfl

/-- C5: over every store reachable from the empty table by submissions and
worker runs, every row has no result while its status is pending or queued
and a non-null result once it is completed or failed; every write in the
embedding commits status and result in one atomic row update. -/
theorem c5_result_presence_invariant (s : Store) (h : Reachable s) : JobInv s := by
  induction h with
  | init => intro r hr; cases hr
  | step hre hstep ih =>
    cases hstep with
    | submit redis save enq crew file_id job_uuid now fn q s =>
      exact analyze_inv _ _ _ _ _ _ _ _ _ _ ih
    | work crew now job_id q fp s =>
      exact process_job_inv ih

/-- Witness for C5 on the store reached by one inline submission. -/
theorem c5_witness :
    JobInv (analyze_financial_document false (.ok ()) (fun _ => .ok ())
      (fun _ _ => .ok "r") [] "f5" "j5" 0 "doc" "query").1 :=
  c5_result_presence_invariant _
    (Reachable.step Reachable.init
      (Step.submit false (.ok ()) (fun _ => .ok ()) (fun _ _ => .ok "r") "f5" "j5" 0 "doc" "query" []))

set_option maxRecDepth 10000 in
/-- C6 counterexample: the claim states that a failed result never carries
raw internals such as a stack trace or raw exception content.  The code
formats the result as the string error, a colon and a space, then str(e)
verbatim; with a stack-trace-like exception text the whole raw text appears
in the stored result (the second conjunct states it verbatim as a suffix). -/
theorem c6_raw_internals_in_result :
    (Store.get (process_job (fun _ _ => .error c6_raw) 1 c6_store "j6" "q" "f") "j6").map
        (fun r => (r.status, r.result)) =
      some ("failed", some ("error: " ++ c6_raw)) ∧
    c6_raw.data.isSuffixOf ("error: " ++ c6_raw).data = true :=
  ⟨by decide, by decide⟩

/-- C6 amended: every job that reaches failed through the worker holds a
non-empty result description, but that description is the fixed prefix
error, colon, space followed by the raw exception text verbatim. -/
theorem c6_failed_result_shape (crew : RunCrew) (now : Nat) (store : Store)
    (job_id q fp e : String) (record : Analysis)
    (hfound : Store.get store job_id = some record)
    (herr : crew q fp = .error e) :
    Store.get (process_job crew now store job_id q fp) job_id =
      some { record with
        result := some ("error: " ++ e), status := "failed", updated_at := now } ∧
    "error: " ++ e ≠ "" := by
  constructor
  · have hid : record.id = job_id := get_some_id hfound
    unfold process_job
    rw [hfound, herr, ← hid]
    exact get_put store _
  · intro hc
    have hlen := congrArg String.length hc
    rw [String.length_append] at hlen
    have h7 : ("error: " : String).length = 7 := rfl
    have h0 : ("" : String).length = 0 := rfl
    rw [h7, h0] at hlen
    omega

/-- Witness for the amended C6 at a concrete pending job and exception. -/
theorem c6_witness :
    Store.get (process_job (fun _ _ => .error "boom2") 2 c6_store "j6" "q" "f") "j6" =
      some { c6_rec with
        result := some ("error: " ++ "boom2"), status := "failed", updated_at := 2 } ∧
    "error: " ++ "boom2" ≠ "" :=
  c6_failed_result_shape (fun _ _ => .error "boom2") 2 c6_store "j6" "q" "f" "boom2" c6_rec
    (by decide) rfl

/-- C7 counterexample: the claim states that an inline execution failure is
recorded in the job record and returned as a terminal state in the same
response rather than surfaced as a request failure.  The code records the
failure but then raises HTTPException 500, which the outer handler wraps
into a second HTTPException 500, so the caller receives a request failure
and no terminal-state response body. -/
theorem c7_inline_failure_surfaces_500 :
    (analyze_financial_document false (.ok ()) (fun _ => .ok ()) (fun _ _ => .error "boom")
        [] "f7" "j7" 0 "doc" "q").2 =
      .error (.http 500 "Error queuing financial document: 500: Error processing document: boom") ∧
    job_status (analyze_financial_document false (.ok ()) (fun _ => .ok ())
        (fun _ _ => .error "boom") [] "f7" "j7" 0 "doc" "q").1 "j7" =
      .ok { job_id := "j7", status := "failed", result := some "error: boom" } :=
  ⟨by decide, by decide⟩

/-- C7 amended: in Inline mode the handler runs the executor synchronously
and writes the terminal outcome to the store in both cases; on success it
returns the completed state with the result in the same response, while on
failure the record is marked failed with the error description but the
caller receives an HTTP 500 request failure instead of a terminal-state
response. -/
theorem c7_inline_terminal (enq : String → Except String Unit) (crew : RunCrew)
    (store : Store) (file_id job_uuid : String) (now : Nat) (fn q : String) :
    (match crew (if q == "" then default_query else q).trim
        ("data/financial_document_" ++ file_id ++ ".pdf") with
     | .ok r =>
        (analyze_financial_document false (.ok ()) enq crew store file_id job_uuid now fn q).2 =
          .ok { status := "completed", job_id := job_uuid,
                query := if q == "" then default_query else q, file_processed := fn,
                result := some r } ∧
        job_status
            (analyze_financial_document false (.ok ()) enq crew store file_id job_uuid now fn q).1
            job_uuid =
          .ok { job_id := job_uuid, status := "completed", result := some r }
     | .error e =>
        (analyze_financial_document false (.ok ()) enq crew store file_id job_uuid now fn q).2 =
          .error (.http 500 ("Error queuing financial document: " ++
            exnStr (.http 500 ("Error processing document: " ++ e)))) ∧
        job_status
            (analyze_financial_document false (.ok ()) enq crew store file_id job_uuid now fn q).1
            job_uuid =
          .ok { job_id := job_uuid, status := "failed", result := some ("error: " ++ e) }) := by
  cases hc : crew (if q == "" then default_query else q).trim
      ("data/financial_document_" ++ file_id ++ ".pdf") with
  | ok r =>
    constructor
    · unfold analyze_financial_document
      dsimp only
      rw [hc]
    · unfold analyze_financial_document
      dsimp only
      rw [hc]
      dsimp only
      unfold job_status updateJob
      rw [get_put_at rfl]
      dsimp only
      rw [get_put_at rfl]
  | error e =>
    constructor
    · unfold analyze_financial_document
      dsimp only
      rw [hc]
    · unfold analyze_financial_document
      dsimp only
      rw [hc]
      dsimp only
      unfold job_status updateJob
      rw [get_put_at rfl]
      dsimp only
      rw [get_put_at rfl]

/-- Witness for the amended C7 at a concrete successful inline run. -/
theorem c7_witness :
    (analyze_financial_document false (.ok ()) (fun _ => .ok ()) (fun _ _ => .ok "done")
        [] "fw" "jw" 0 "doc" "q7").2 =
      .ok { status := "completed", job_id := "jw", query := "q7", file_processed := "doc",
            result := some "done" } ∧
    job_status (analyze_financial_document false (.ok ()) (fun _ => .ok ())
        (fun _ _ => .ok "done") [] "fw" "jw" 0 "doc" "q7").1 "jw" =
      .ok { job_id := "jw", status := "completed", result := some "done" } :=
  c7_inline_terminal (fun _ => .ok ()) (fun _ _ => .ok "done") [] "fw" "jw" 0 "doc" "q7"

/-- C8: the claim states that when the enqueue fails in Queued mode the
handler transitions the record from pending to failed with a dispatch
failure reason and informs the caller.  The code violates the first half:
the enqueue exception propagates to the outer handler, which raises
HTTPException 500 (so the caller is informed) but never writes to the
record, which a status query still shows as pending with no result. -/
theorem c8_enqueue_failure_leaves_pending :
    (analyze_financial_document true (.ok ()) (fun _ => .error "connection refused")
        (fun _ _ => .ok "r") [] "f8" "j8" 0 "doc" "q").2 =
      .error (.http 500 "Error queuing financial document: connection refused") ∧
    job_status (analyze_financial_document true (.ok ()) (fun _ => .error "connection refused")
        (fun _ _ => .ok "r") [] "f8" "j8" 0 "doc" "q").1 "j8" =
      .ok { job_id := "j8", status := "pending", result := none } :=
  ⟨by decide, by decide⟩

/-- C9: the status endpoint raises a 404 HTTPException for a job id with no
stored record, and for a stored record returns its id, status and result. -/
theorem c9_status_query (store : Store) (id : String) (r : Analysis) :
    (Store.get store id = none →
       job_status store id = .error (.http 404 "Job not found")) ∧
    (Store.get store id = some r →
       job_status store id = .ok { job_id := r.id, status := r.status, result := r.result }) := by
  constructor
  · intro h; unfold job_status; rw [h]
  · intro h; unfold job_status; rw [h]

/-- Witness for C9 on the empty store and on a store holding one pending
job. -/
theorem c9_witness :
    job_status [] "nonexistent" = .error (.http 404 "Job not found") ∧
    job_status c9_store "j9" = .ok { job_id := "j9", status := "pending", result := none } := by
  constructor
  · exact (c9_status_query [] "nonexistent" c9_rec).1 rfl
  · exact (c9_status_query c9_store "j9" c9_rec).2 (by decide)

/-- C10: read_data_tool, with every fallible collaborator modelled as an
Except oracle, is a total String-valued function, so no collaborator
failure escapes to the caller; it returns the empty string when the file
does not exist and when both the PDF parse and the raw fallback read fail,
and returns the normalized page text when parsing succeeds. -/
theorem c10_read_data_tool_safe (pdf_ready : Bool)
    (pdfParse : String → Except String (List (Option String)))
    (fs_exists : String → Bool) (fs_read : String → Except String String)
    (path m mr : String) (pages : List (Option String)) :
    (fs_exists path = false →
       read_data_tool pdf_ready pdfParse fs_exists fs_read path = "") ∧
    (fs_exists path = true → pdfParse path = .error m → fs_read path = .error mr →
       read_data_tool pdf_ready pdfParse fs_exists fs_read path = "") ∧
    (fs_exists path = true → pdf_ready = true → pdfParse path = .ok pages →
       read_data_tool pdf_ready pdfParse fs_exists fs_read path =
         String.intercalate "\n\n" (pages.map (fun p => normalize_page (p.getD "")))) := by
  refine ⟨?_, ?_, ?_⟩
  · intro h
    unfold read_data_tool
    rw [h]
  · intro h hp hr
    unfold read_data_tool
    rw [h]
    dsimp only
    cases pdf_ready with
    | true => rw [hp]; dsimp only; rw [hr]
    | false => rw [hr]
  · intro h hready hp
    subst hready
    unfold read_data_tool
    rw [h]
    dsimp only
    rw [hp]

/-- Witness for C10: a missing file, an unreadable file whose PDF parse and
raw read both fail, and a two-page parse with one empty page. -/
theorem c10_witness :
    read_data_tool true (fun _ => .error "bad pdf") (fun _ => false)
      (fun _ => .error "io error") "a.pdf" = "" ∧
    read_data_tool true (fun _ => .error "bad pdf") (fun _ => true)
      (fun _ => .error "io error") "b.pdf" = "" ∧
    read_data_tool true (fun _ => .ok [some "  Page one  ", none]) (fun _ => true)
      (fun _ => .ok "raw") "c.pdf" =
      String.intercalate "\n\n" ([some "  Page one  ", none].map
        (fun p => normalize_page (p.getD ""))) := by
  refine ⟨?_, ?_, ?_⟩
  · exact (c10_read_data_tool_safe true (fun _ => .error "bad pdf") (fun _ => false)
      (fun _ => .error "io error") "a.pdf" "bad pdf" "io error" []).1 rfl
  · exact (c10_read_data_tool_safe true (fun _ => .error "bad pdf") (fun _ => true)
      (fun _ => .error "io error") "b.pdf" "bad pdf" "io error" []).2.1 rfl rfl rfl
  · exact (c10_read_data_tool_safe true (fun _ => .ok [some "  Page one  ", none]) (fun _ => true)
      (fun _ => .ok "raw") "c.pdf" "x" "y" [some "  Page one  ", none]).2.2 rfl rfl rfl

end FDA
